import Mathlib

/-!
# Verification of the NASA Exoplanet Discovery Explorer pipeline

Shallow embedding of the repository's four Python modules:

* `data_fetcher.py`   — fetch, clean/derive, save pipeline (namespace `DataFetcher`)
* `data_extraction.py`— alternative cleaning pass (namespace `DataExtraction`)
* `database_setup.py` — SQLite schema and CSV loader (namespace `DatabaseSetup`)
* `App.py`            — Streamlit dashboard, Explorer page SQL (namespace `App`)

Pandas cells are modelled by `Cell`: a cell is null (`NaN`), a numeric value
(modelled as `ℚ`), or a non-null value with no numeric interpretation
(`nonnum`, e.g. a string such as "abc"; strings that parse as numbers are
represented by `num`).  Pandas comparisons against `NaN` are `False`, which the
`Bool`-valued comparison helpers reproduce.  Vectorised `Series` operations are
modelled element-wise on `List`s of rows.
-/

/-- A pandas cell: null / numeric / non-null non-numeric. -/
inductive Cell : Type
  | null : Cell
  | num : ℚ → Cell
  | nonnum : Cell
  deriving DecidableEq, Repr

namespace Cell

/-- Numeric view of a cell (`None` for null and for non-numeric values). -/
def toNum : Cell → Option ℚ
  | null => none
  | num q => some q
  | nonnum => none

/-- `pd.notna` on a cell. -/
def notna : Cell → Bool
  | null => false
  | _ => true

/-- `pd.to_numeric(_, errors='coerce')` on a cell: numeric values survive,
anything without a numeric interpretation becomes null. -/
def toNumericCoerce : Cell → Cell
  | num q => num q
  | _ => null

end Cell

/-- `series >= q` elementwise, on the numeric view of a value: comparisons with
a missing value are `False`, as in pandas. -/
def cmpGe (c : Option ℚ) (q : ℚ) : Bool :=
  match c with
  | some x => decide (q ≤ x)
  | none => false

/-- `series <= q` elementwise; `False` on a missing value. -/
def cmpLe (c : Option ℚ) (q : ℚ) : Bool :=
  match c with
  | some x => decide (x ≤ q)
  | none => false

/-- `series < q` elementwise; `False` on a missing value. -/
def cmpLt (c : Option ℚ) (q : ℚ) : Bool :=
  match c with
  | some x => decide (x < q)
  | none => false

/-- One step of the `Series.where(~mask, other)` chain used in
`classify_planet_type`: where the mask holds the value is replaced by `other`,
elsewhere the current value is kept. -/
def seriesWhereMask (cur : String) (mask : Bool) (other : String) : String :=
  if mask then other else cur

/-- `pd.cut` bin search with `right=True` (the default): the value falls in the
first interval `(edges[i], edges[i+1]]`; outside every interval the result is
null. -/
def pdCutFind : List ℚ → List String → ℚ → Option String
  | lo :: hi :: es, lab :: ls, x =>
      if lo < x ∧ x ≤ hi then some lab else pdCutFind (hi :: es) ls x
  | _, _, _ => none

/-- `pd.cut(series, bins, labels)` on a single (possibly missing) value:
a missing value gets no category. -/
def pdCut (edges : List ℚ) (labels : List String) (c : Option ℚ) : Option String :=
  c.bind (pdCutFind edges labels)

namespace DataFetcher

/-- A raw record of `data_fetcher.py`'s frame, restricted to the columns the
cleaning pass inspects.  `others_allna` abstracts the remaining columns of the
31-column frame: it is `true` iff every column outside the modelled ones is
null after numeric coercion (used only by `dropna(how='all')`). -/
structure RawRow : Type where
  pl_name : Option String
  pl_rade : Cell
  pl_eqt : Cell
  pl_orbper : Cell
  disc_year : Cell
  sy_dist : Cell
  others_allna : Bool
  deriving DecidableEq, Repr

/-- The numeric-coercion loop of `clean_exoplanet_data`
(`df[col] = pd.to_numeric(df[col], errors='coerce')` for each numeric column;
`pl_name` is not a numeric column). -/
def coerceRow (r : RawRow) : RawRow :=
  { r with
    pl_rade := r.pl_rade.toNumericCoerce
    pl_eqt := r.pl_eqt.toNumericCoerce
    pl_orbper := r.pl_orbper.toNumericCoerce
    disc_year := r.disc_year.toNumericCoerce
    sy_dist := r.sy_dist.toNumericCoerce }

/-- `df.dropna(how='all')`: a row is dropped iff every column is null. -/
def rowAllNa (r : RawRow) : Bool :=
  !r.pl_name.isSome && !r.pl_rade.notna && !r.pl_eqt.notna && !r.pl_orbper.notna
    && !r.disc_year.notna && !r.sy_dist.notna && r.others_allna

/-- `calculate_habitability_score` on one row: three masked awards added to a
zero series, exactly as in the source (`score = score + mask.astype(int) * pts`).
Fractional thresholds are written with `mkRat` so they evaluate in the kernel:
`mkRat 1 2` is the source's `0.5`, and `2` its `2.0`. -/
def habitabilityScoreRow (r : RawRow) : ℕ :=
  let score : ℕ := 0
  let mask1 := cmpGe r.pl_rade.toNum (mkRat 1 2) && cmpLe r.pl_rade.toNum 2
  let score := score + (if mask1 then 1 else 0) * 35
  let mask2 := cmpGe r.pl_eqt.toNum 200 && cmpLe r.pl_eqt.toNum 350
  let score := score + (if mask2 then 1 else 0) * 40
  let mask3 := cmpGe r.pl_orbper.toNum 200 && cmpLe r.pl_orbper.toNum 500
  let score := score + (if mask3 then 1 else 0) * 25
  score

/-- `calculate_habitability_score(df)`: the vectorised computation, element-wise. -/
def calculate_habitability_score (df : List RawRow) : List ℕ :=
  df.map habitabilityScoreRow

/-- `classify_planet_type` on one row: the source's chain of
`Series.where(~mask, label)` updates starting from `'Unknown'`.
`mkRat 5 4` is the source's `1.25`; `2`, `4`, `10` are its `2.0`, `4.0`, `10.0`. -/
def planetTypeRow (r : RawRow) : String :=
  let t := "Unknown"
  let t := seriesWhereMask t (cmpLt r.pl_rade.toNum (mkRat 5 4) && r.pl_rade.toNum.isSome) "Rocky (Earth-like)"
  let t := seriesWhereMask t (cmpGe r.pl_rade.toNum (mkRat 5 4) && cmpLt r.pl_rade.toNum 2) "Super-Earth"
  let t := seriesWhereMask t (cmpGe r.pl_rade.toNum 2 && cmpLt r.pl_rade.toNum 4) "Mini-Neptune"
  let t := seriesWhereMask t (cmpGe r.pl_rade.toNum 4 && cmpLt r.pl_rade.toNum 10) "Neptune-like"
  let t := seriesWhereMask t (cmpGe r.pl_rade.toNum 10) "Jupiter-like"
  t

/-- `classify_planet_type(df)`, element-wise. -/
def classify_planet_type (df : List RawRow) : List String :=
  df.map planetTypeRow

/-- The `discovery_era` derivation:
`pd.cut(df['disc_year'], bins=[0,2000,2010,2015,2020,2030], labels=[...])`. -/
def discoveryEraRow (r : RawRow) : Option String :=
  pdCut [0, 2000, 2010, 2015, 2020, 2030]
    ["Pre-2000", "2000s", "2010-2015", "2015-2020", "2020+"] r.disc_year.toNum

/-- The `distance_category` derivation:
`pd.cut(df['sy_dist'], bins=[0,50,100,500,10000], labels=[...])`. -/
def distanceCategoryRow (r : RawRow) : Option String :=
  pdCut [0, 50, 100, 500, 10000]
    ["Very Close (<50pc)", "Close (50-100pc)", "Moderate (100-500pc)", "Far (>500pc)"]
    r.sy_dist.toNum

/-- A cleaned row: the original columns plus the derived columns that
`clean_exoplanet_data` adds (the `data_fetched_at` timestamp is wall-clock
metadata and is not modelled). -/
structure CleanRow : Type where
  base : RawRow
  habitability_score : ℕ
  planet_type : String
  discovery_era : Option String
  distance_category : Option String
  deriving DecidableEq, Repr

/-- The derived-column block of `clean_exoplanet_data` (habitability score,
planet type, discovery era, distance category) applied to one row. -/
def enhanceRow (r : RawRow) : CleanRow :=
  { base := r
    habitability_score := habitabilityScoreRow r
    planet_type := planetTypeRow r
    discovery_era := discoveryEraRow r
    distance_category := distanceCategoryRow r }

end DataFetcher

/-- `DataFrame.drop_duplicates(subset=key, keep='first')` on a list of rows:
keep a row iff its key was not seen earlier.  Null keys compare equal, as in
pandas. -/
def dropDupFirst {α β : Type} [DecidableEq β] (key : α → β) (seen : List β) :
    List α → List α
  | [] => []
  | x :: xs =>
      if key x ∈ seen then dropDupFirst key seen xs
      else x :: dropDupFirst key (key x :: seen) xs

namespace DataFetcher

/-- `clean_exoplanet_data(df)`: empty guard, numeric coercion,
`dropna(how='all')`, `dropna(subset=['pl_name'])`,
`drop_duplicates(subset=['pl_name'], keep='first')`, then the derived columns. -/
def clean_exoplanet_data (df : List RawRow) : List CleanRow :=
  if df.isEmpty then []
  else
    let df := df.map coerceRow
    let df := df.filter (fun r => !rowAllNa r)
    let df := df.filter (fun r => r.pl_name.isSome)
    let df := dropDupFirst (fun r => r.pl_name) [] df
    df.map enhanceRow

/-- Possible outcomes of the guarded block of `fetch_exoplanet_data`: the
request succeeded and a frame was built from the decoded records, or one of
the failure modes was raised (`requests.exceptions.Timeout`,
`raise_for_status`, response decoding, frame construction, anything else).
All failures are caught by the `except` clauses. -/
inductive FetchOutcome : Type
  | ok (records : List RawRow)
  | timeout
  | httpError
  | decodeError
  | frameError
  | otherError
  deriving DecidableEq, Repr

/-- `fetch_exoplanet_data()`: the decoded frame on success, and the empty
frame returned by each `except` handler on any failure. -/
def fetch_exoplanet_data : FetchOutcome → List RawRow
  | .ok records => records
  | _ => []

/-- The stages of `main()` in `data_fetcher.py`, in the order the script can
run them. -/
inductive Stage : Type
  | fetch
  | clean
  | save
  deriving DecidableEq, Repr

/-- `main()`: fetch, early return on an empty frame, clean, early return on an
empty frame, save to CSV.  Returns the stages that actually ran and the frame
saved to `exoplanet_data.csv` (if any). -/
def mainRun (o : FetchOutcome) : List Stage × Option (List CleanRow) :=
  let raw_df := fetch_exoplanet_data o
  if raw_df.isEmpty then ([Stage.fetch], none)
  else
    let clean_df := clean_exoplanet_data raw_df
    if clean_df.isEmpty then ([Stage.fetch, Stage.clean], none)
    else ([Stage.fetch, Stage.clean, Stage.save], some clean_df)

end DataFetcher

namespace App

/-- The fixed `SELECT ... WHERE 1=1` head of the Explorer page query
(`App.py`, `show_explorer`), including the source's whitespace. -/
def baseExplorerQuery : String :=
  "\n    SELECT \n        pl_name as \"Planet Name\",\n        hostname as \"Host Star\",\n        discoverymethod as \"Method\",\n        disc_year as \"Year\",\n        planet_type as \"Type\",\n        pl_rade as \"Radius (R⊕)\",\n        pl_masse as \"Mass (M⊕)\",\n        pl_eqt as \"Temp (K)\",\n        pl_orbper as \"Period (days)\",\n        habitability_score as \"Habitability\"\n    FROM planets\n    WHERE 1=1\n    "

/-- The fixed tail appended after the conditions. -/
def orderLimitClause : String :=
  " ORDER BY disc_year DESC, habitability_score DESC LIMIT 1000"

/-- One user filter selection on the Explorer page.  The radius slider has
step 0.5, so its float endpoints are stored as numbers of halves. -/
structure ExplorerFilters : Type where
  selected_methods : List String
  year_lo : ℕ
  year_hi : ℕ
  radius_lo_halves : ℕ
  radius_hi_halves : ℕ
  temp_lo : ℕ
  temp_hi : ℕ
  selected_types : List String
  min_habitability : ℕ
  deriving DecidableEq, Repr

/-- Python's `repr` of the radius slider's float value (a multiple of 0.5):
`12.0`, `12.5`, ... -/
def renderHalves (n : ℕ) : String :=
  toString (n / 2) ++ "." ++ (if n % 2 == 0 then "0" else "5")

/-- The `conditions` list built by `show_explorer`: each entry is an f-string
with the filter values interpolated into the SQL text. -/
def explorerConditions (f : ExplorerFilters) : List String :=
  (if f.selected_methods ≠ [] then
      ["discoverymethod IN ('" ++ String.intercalate "','" f.selected_methods ++ "')"]
    else [])
  ++ ["disc_year BETWEEN " ++ toString f.year_lo ++ " AND " ++ toString f.year_hi,
      "pl_rade BETWEEN " ++ renderHalves f.radius_lo_halves ++ " AND "
        ++ renderHalves f.radius_hi_halves,
      "pl_eqt BETWEEN " ++ toString f.temp_lo ++ " AND " ++ toString f.temp_hi]
  ++ (if f.selected_types ≠ [] then
      ["planet_type IN ('" ++ String.intercalate "','" f.selected_types ++ "')"]
    else [])
  ++ ["habitability_score >= " ++ toString f.min_habitability]

/-- The query string `show_explorer` builds:
`query += " AND " + " AND ".join(conditions)` (when `conditions` is truthy),
then `query += " ORDER BY ... LIMIT 1000"`. -/
def explorerQuery (f : ExplorerFilters) : String :=
  let query := baseExplorerQuery
  let conditions := explorerConditions f
  let query :=
    if conditions.isEmpty then query
    else query ++ " AND " ++ String.intercalate " AND " conditions
  query ++ orderLimitClause

/-- The call `load_data_cached(query)` → `pd.read_sql_query(query, conn)`:
the SQL text handed to the database together with the list of bound
parameters — none are passed. -/
def read_sql_call (f : ExplorerFilters) : String × List String :=
  (explorerQuery f, [])

end App

namespace DataExtraction

/-- A raw record of `data_extraction.py`'s frame, restricted to the columns
its cleaning pass inspects. -/
structure ExtRow : Type where
  pl_name : Option String := none
  pl_rade : Cell := Cell.null
  pl_eqt : Cell := Cell.null
  pl_orbper : Cell := Cell.null
  st_teff : Cell := Cell.null
  st_rad : Cell := Cell.null
  disc_year : Cell := Cell.null
  deriving DecidableEq, Repr

/-- `df["disc_year"] = pd.to_numeric(df["disc_year"], errors="coerce")`. -/
def coerceYear (r : ExtRow) : ExtRow :=
  { r with disc_year := r.disc_year.toNumericCoerce }

/-- The `numeric_cols` loop: `pd.to_numeric(df[col], errors="coerce")` for
`pl_rade`, `pl_eqt`, `pl_orbper`, `st_teff`, `st_rad`. -/
def coerceNumericCols (r : ExtRow) : ExtRow :=
  { r with
    pl_rade := r.pl_rade.toNumericCoerce
    pl_eqt := r.pl_eqt.toNumericCoerce
    pl_orbper := r.pl_orbper.toNumericCoerce
    st_teff := r.st_teff.toNumericCoerce
    st_rad := r.st_rad.toNumericCoerce }

/-- `clean_exoplanet_data(df)` of `data_extraction.py`:
`drop_duplicates(subset="pl_name")`, coerce `disc_year`,
`dropna(subset=["pl_rade","pl_eqt","pl_orbper"])`, then coerce the numeric
columns.  Note the critical-column coercion happens after the `dropna`. -/
def clean_exoplanet_data (df : List ExtRow) : List ExtRow :=
  let df := dropDupFirst (fun r => r.pl_name) [] df
  let df := df.map coerceYear
  let df := df.filter (fun r => r.pl_rade.notna && r.pl_eqt.notna && r.pl_orbper.notna)
  df.map coerceNumericCols

end DataExtraction

namespace DatabaseSetup

/-- One record of the CSV read by `insert_data_from_csv` (the columns the
loader touches; all nullable, numeric columns as `Option ℚ`, text columns as
`Option String`). -/
structure CsvRow : Type where
  pl_name : Option String := none
  hostname : Option String := none
  discoverymethod : Option String := none
  disc_year : Option ℚ := none
  disc_facility : Option String := none
  pl_orbper : Option ℚ := none
  pl_orbsmax : Option ℚ := none
  pl_rade : Option ℚ := none
  pl_radj : Option ℚ := none
  pl_masse : Option ℚ := none
  pl_massj : Option ℚ := none
  pl_bmasse : Option ℚ := none
  pl_bmassj : Option ℚ := none
  pl_bmassprov : Option String := none
  pl_dens : Option ℚ := none
  pl_eqt : Option ℚ := none
  pl_insol : Option ℚ := none
  habitability_score : Option ℚ := none
  planet_type : Option String := none
  discovery_era : Option String := none
  distance_category : Option String := none
  ra : Option ℚ := none
  dec : Option ℚ := none
  glat : Option ℚ := none
  glon : Option ℚ := none
  data_fetched_at : Option String := none
  st_teff : Option ℚ := none
  st_rad : Option ℚ := none
  st_mass : Option ℚ := none
  st_met : Option ℚ := none
  st_logg : Option ℚ := none
  st_age : Option ℚ := none
  sy_snum : Option ℚ := none
  sy_pnum : Option ℚ := none
  sy_dist : Option ℚ := none
  sy_gaiamag : Option ℚ := none
  deriving DecidableEq, Repr

/-- A row of the `planets` table: `pl_name TEXT UNIQUE NOT NULL` plus the 25
other inserted columns (the autogenerated `id` and `created_at` are not part
of the logical payload). -/
structure PlanetRow : Type where
  pl_name : String
  hostname : Option String := none
  discoverymethod : Option String := none
  disc_year : Option ℚ := none
  disc_facility : Option String := none
  pl_orbper : Option ℚ := none
  pl_orbsmax : Option ℚ := none
  pl_rade : Option ℚ := none
  pl_radj : Option ℚ := none
  pl_masse : Option ℚ := none
  pl_massj : Option ℚ := none
  pl_bmasse : Option ℚ := none
  pl_bmassj : Option ℚ := none
  pl_bmassprov : Option String := none
  pl_dens : Option ℚ := none
  pl_eqt : Option ℚ := none
  pl_insol : Option ℚ := none
  habitability_score : Option ℚ := none
  planet_type : Option String := none
  discovery_era : Option String := none
  distance_category : Option String := none
  ra : Option ℚ := none
  dec : Option ℚ := none
  glat : Option ℚ := none
  glon : Option ℚ := none
  data_fetched_at : Option String := none
  deriving DecidableEq, Repr

/-- A row of the `stars` table: `hostname TEXT UNIQUE NOT NULL`, the six
stellar columns, `planet_count INTEGER DEFAULT 0`. -/
structure StarRow : Type where
  hostname : String
  st_teff : Option ℚ := none
  st_rad : Option ℚ := none
  st_mass : Option ℚ := none
  st_met : Option ℚ := none
  st_logg : Option ℚ := none
  st_age : Option ℚ := none
  planet_count : ℕ := 0
  deriving DecidableEq, Repr

/-- A row of the `systems` table: `hostname TEXT UNIQUE NOT NULL` plus the
four system columns. -/
structure SystemRow : Type where
  hostname : String
  sy_snum : Option ℚ := none
  sy_pnum : Option ℚ := none
  sy_dist : Option ℚ := none
  sy_gaiamag : Option ℚ := none
  deriving DecidableEq, Repr

/-- The persistent store `create_database` sets up: exactly the three tables
`planets`, `stars`, `systems` (their indexes only affect speed). -/
structure DB : Type where
  planets : List PlanetRow
  stars : List StarRow
  systems : List SystemRow
  deriving DecidableEq, Repr

/-- `create_database(db_name)` on a fresh database file: three empty tables. -/
def create_database : DB :=
  { planets := [], stars := [], systems := [] }

/-- The planet payload built from one CSV row
(`[row.get(col) if pd.notna(row.get(col)) else None for col in planet_columns]`). -/
def mkPlanetRow (n : String) (row : CsvRow) : PlanetRow :=
  { pl_name := n
    hostname := row.hostname
    discoverymethod := row.discoverymethod
    disc_year := row.disc_year
    disc_facility := row.disc_facility
    pl_orbper := row.pl_orbper
    pl_orbsmax := row.pl_orbsmax
    pl_rade := row.pl_rade
    pl_radj := row.pl_radj
    pl_masse := row.pl_masse
    pl_massj := row.pl_massj
    pl_bmasse := row.pl_bmasse
    pl_bmassj := row.pl_bmassj
    pl_bmassprov := row.pl_bmassprov
    pl_dens := row.pl_dens
    pl_eqt := row.pl_eqt
    pl_insol := row.pl_insol
    habitability_score := row.habitability_score
    planet_type := row.planet_type
    discovery_era := row.discovery_era
    distance_category := row.distance_category
    ra := row.ra
    dec := row.dec
    glat := row.glat
    glon := row.glon
    data_fetched_at := row.data_fetched_at }

/-- `INSERT OR IGNORE INTO planets ...` for one CSV row: a null planet name
violates `NOT NULL` and is ignored, an existing planet name violates `UNIQUE`
and is ignored (leaving the table unchanged), otherwise the row is appended. -/
def insertPlanet (t : List PlanetRow) (row : CsvRow) : List PlanetRow :=
  match row.pl_name with
  | none => t
  | some n => if t.any (fun p => p.pl_name == n) then t else t ++ [mkPlanetRow n row]

/-- The planets insertion loop (`for _, row in df.iterrows()`). -/
def insertPlanets (t : List PlanetRow) (df : List CsvRow) : List PlanetRow :=
  df.foldl insertPlanet t

/-- SQLite `INSERT OR REPLACE` on a table with a unique `key` column: every
row with the new row's key is deleted and the new row is inserted. -/
def replaceByKey {α : Type} (key : α → String) (t : List α) (row : α) : List α :=
  t.filter (fun s => key s != key row) ++ [row]

/-- `INSERT OR REPLACE INTO stars ...` for one aggregated star row. -/
def insertOrReplaceStar (t : List StarRow) (row : StarRow) : List StarRow :=
  replaceByKey (fun s => s.hostname) t row

/-- The stars insertion loop. -/
def insertStars (t : List StarRow) (rows : List StarRow) : List StarRow :=
  rows.foldl insertOrReplaceStar t

/-- `INSERT OR REPLACE INTO systems ...` for one aggregated system row. -/
def insertOrReplaceSystem (t : List SystemRow) (row : SystemRow) : List SystemRow :=
  replaceByKey (fun s => s.hostname) t row

/-- The systems insertion loop. -/
def insertSystems (t : List SystemRow) (rows : List SystemRow) : List SystemRow :=
  rows.foldl insertOrReplaceSystem t

/-- The distinct non-null hostnames of the frame: the group keys of
`df.groupby('hostname')` (pandas drops null keys; it also sorts the keys,
which only permutes the aggregated rows and affects none of the stated
properties). -/
def hostnames (df : List CsvRow) : List String :=
  dropDupFirst id [] (df.filterMap (fun r => r.hostname))

/-- The rows of one hostname group. -/
def groupRows (df : List CsvRow) (h : String) : List CsvRow :=
  df.filter (fun r => r.hostname == some h)

/-- pandas `agg 'first'`: the first non-null value of the group (null if the
group has none). -/
def firstNonNull (l : List (Option ℚ)) : Option ℚ :=
  (l.filterMap id).head?

/-- The `star_data` frame: `df.groupby('hostname').agg({'st_teff': 'first',
..., 'pl_name': 'count'})` — `'count'` counts the group's non-null planet
names. -/
def star_data (df : List CsvRow) : List StarRow :=
  (hostnames df).map (fun h =>
    let g := groupRows df h
    { hostname := h
      st_teff := firstNonNull (g.map (fun r => r.st_teff))
      st_rad := firstNonNull (g.map (fun r => r.st_rad))
      st_mass := firstNonNull (g.map (fun r => r.st_mass))
      st_met := firstNonNull (g.map (fun r => r.st_met))
      st_logg := firstNonNull (g.map (fun r => r.st_logg))
      st_age := firstNonNull (g.map (fun r => r.st_age))
      planet_count := (g.filterMap (fun r => r.pl_name)).length })

/-- The `system_data` frame: `df.groupby('hostname').agg({'sy_snum': 'first',
...})`. -/
def system_data (df : List CsvRow) : List SystemRow :=
  (hostnames df).map (fun h =>
    let g := groupRows df h
    { hostname := h
      sy_snum := firstNonNull (g.map (fun r => r.sy_snum))
      sy_pnum := firstNonNull (g.map (fun r => r.sy_pnum))
      sy_dist := firstNonNull (g.map (fun r => r.sy_dist))
      sy_gaiamag := firstNonNull (g.map (fun r => r.sy_gaiamag)) })

/-- `insert_data_from_csv(conn, csv_file)`: insert every CSV row into
`planets` with `INSERT OR IGNORE`, then the aggregated star rows into `stars`
and the aggregated system rows into `systems` with `INSERT OR REPLACE`. -/
def insert_data_from_csv (db : DB) (df : List CsvRow) : DB :=
  { planets := insertPlanets db.planets df
    stars := insertStars db.stars (star_data df)
    systems := insertSystems db.systems (system_data df) }

end DatabaseSetup

/-! ## Spec-side definitions (for refinement comparison)

These follow the claims' words, to be compared with the source-side
definitions above. -/

/-- Spec wording of the habitability score: 35 points iff `0.5 ≤ pl_rade ≤ 2.0`,
plus 40 iff `200 ≤ pl_eqt ≤ 350`, plus 25 iff `200 ≤ pl_orbper ≤ 500`; a missing
value earns that criterion 0 points. -/
def habitabilityScoreSpec (rade eqt orbper : Option ℚ) : ℕ :=
  (match rade with
   | some x => if mkRat 1 2 ≤ x ∧ x ≤ 2 then 35 else 0
   | none => 0)
  + (match eqt with
     | some x => if 200 ≤ x ∧ x ≤ 350 then 40 else 0
     | none => 0)
  + (match orbper with
     | some x => if 200 ≤ x ∧ x ≤ 500 then 25 else 0
     | none => 0)

/-- Spec wording of the planet-type classifier: six mutually exclusive,
exhaustive radius bands, `'Unknown'` on a missing radius. -/
def planetTypeSpec (rade : Option ℚ) : String :=
  match rade with
  | none => "Unknown"
  | some x =>
      if x < mkRat 5 4 then "Rocky (Earth-like)"
      else if x < 2 then "Super-Earth"
      else if x < 4 then "Mini-Neptune"
      else if x < 10 then "Neptune-like"
      else "Jupiter-like"

/-- Spec wording of the discovery-era binning. -/
def discoveryEraSpec (y : Option ℚ) : Option String :=
  match y with
  | none => none
  | some x =>
      if 0 < x ∧ x ≤ 2000 then some "Pre-2000"
      else if 2000 < x ∧ x ≤ 2010 then some "2000s"
      else if 2010 < x ∧ x ≤ 2015 then some "2010-2015"
      else if 2015 < x ∧ x ≤ 2020 then some "2015-2020"
      else if 2020 < x ∧ x ≤ 2030 then some "2020+"
      else none

/-- Spec wording of the distance binning. -/
def distanceCategorySpec (d : Option ℚ) : Option String :=
  match d with
  | none => none
  | some x =>
      if 0 < x ∧ x ≤ 50 then some "Very Close (<50pc)"
      else if 50 < x ∧ x ≤ 100 then some "Close (50-100pc)"
      else if 100 < x ∧ x ≤ 500 then some "Moderate (100-500pc)"
      else if 500 < x ∧ x ≤ 10000 then some "Far (>500pc)"
      else none

/-! ## Theorems -/

/-- Row-level agreement of the source habitability score with the spec's
three-criterion sum. -/
lemma habitabilityScoreRow_eq_spec (r : DataFetcher.RawRow) :
    DataFetcher.habitabilityScoreRow r
      = habitabilityScoreSpec r.pl_rade.toNum r.pl_eqt.toNum r.pl_orbper.toNum := by
  unfold DataFetcher.habitabilityScoreRow habitabilityScoreSpec
  rcases hr : r.pl_rade.toNum with _ | x <;>
    rcases he : r.pl_eqt.toNum with _ | y <;>
    rcases ho : r.pl_orbper.toNum with _ | z <;>
    simp only [cmpGe, cmpLe, Bool.false_and, Bool.and_eq_true, decide_eq_true_eq,
      if_false, Bool.false_eq_true] <;>
    split_ifs <;> omega

/-- The spec-side score always lies in the eight-element value set. -/
lemma habitabilityScoreSpec_mem (a b c : Option ℚ) :
    habitabilityScoreSpec a b c ∈ [0, 25, 35, 40, 60, 65, 75, 100]
      ∧ habitabilityScoreSpec a b c ≤ 100 := by
  unfold habitabilityScoreSpec
  rcases a with _ | x <;> rcases b with _ | y <;> rcases c with _ | z <;>
    dsimp only <;> (try split_ifs) <;> decide

/-- **C2.** `calculate_habitability_score` awards each row exactly the sum of
the three independent criteria (35 iff `0.5 ≤ pl_rade ≤ 2.0`, 40 iff
`200 ≤ pl_eqt ≤ 350`, 25 iff `200 ≤ pl_orbper ≤ 500`, missing values earning 0),
and every score lies in `{0, 25, 35, 40, 60, 65, 75, 100} ⊆ [0, 100]`. -/
theorem habitability_score_spec_and_range (df : List DataFetcher.RawRow) :
    DataFetcher.calculate_habitability_score df
      = df.map (fun r =>
          habitabilityScoreSpec r.pl_rade.toNum r.pl_eqt.toNum r.pl_orbper.toNum)
    ∧ ∀ s ∈ DataFetcher.calculate_habitability_score df,
        s ∈ [0, 25, 35, 40, 60, 65, 75, 100] ∧ s ≤ 100 := by
  constructor
  · exact List.map_congr_left (fun r _ => habitabilityScoreRow_eq_spec r)
  · intro s hs
    rcases List.mem_map.mp hs with ⟨r, _, rfl⟩
    rw [habitabilityScoreRow_eq_spec r]
    exact habitabilityScoreSpec_mem _ _ _

/-- Witness for C2 at a concrete frame. -/
theorem habitability_score_spec_and_range_witness :
    (DataFetcher.calculate_habitability_score
        [{ pl_name := some "Kepler-442 b", pl_rade := Cell.num 1,
           pl_eqt := Cell.num 233, pl_orbper := Cell.num 300,
           disc_year := Cell.num 2015, sy_dist := Cell.num 342,
           others_allna := false }]
      = [100])
    ∧ (100 ∈ [0, 25, 35, 40, 60, 65, 75, 100] ∧ 100 ≤ 100) := by
  refine ⟨by decide, ?_⟩
  exact (habitability_score_spec_and_range
    [{ pl_name := some "Kepler-442 b", pl_rade := Cell.num 1,
       pl_eqt := Cell.num 233, pl_orbper := Cell.num 300,
       disc_year := Cell.num 2015, sy_dist := Cell.num 342,
       others_allna := false }]).2 100 (by decide)

/-- **C3.** `classify_planet_type` classifies every row by radius alone into the
six stated mutually exclusive, exhaustive bands ('Unknown' on a missing
radius), i.e. it agrees with the spec's cascade, and every output is one of the
six labels. -/
theorem classify_planet_type_spec (df : List DataFetcher.RawRow) :
    DataFetcher.classify_planet_type df
      = df.map (fun r => planetTypeSpec r.pl_rade.toNum)
    ∧ ∀ t ∈ DataFetcher.classify_planet_type df,
        t ∈ ["Rocky (Earth-like)", "Super-Earth", "Mini-Neptune",
             "Neptune-like", "Jupiter-like", "Unknown"] := by
  have hrow : ∀ r : DataFetcher.RawRow,
      DataFetcher.planetTypeRow r = planetTypeSpec r.pl_rade.toNum := by
    intro r
    unfold DataFetcher.planetTypeRow planetTypeSpec
    rcases hr : r.pl_rade.toNum with _ | x
    · simp [cmpGe, cmpLt, seriesWhereMask, hr]
    · simp only [cmpGe, cmpLt, seriesWhereMask, hr, Option.isSome_some, Bool.and_true,
        Rat.mkRat_eq_div, Bool.and_eq_true, decide_eq_true_eq]
      split_ifs <;> simp_all <;> linarith
  constructor
  · unfold DataFetcher.classify_planet_type
    exact List.map_congr_left (fun r _ => hrow r)
  · intro t ht
    unfold DataFetcher.classify_planet_type at ht
    rcases List.mem_map.mp ht with ⟨r, _, rfl⟩
    rw [hrow r]
    unfold planetTypeSpec
    rcases r.pl_rade.toNum with _ | x
    · simp
    · dsimp only
      split_ifs <;> simp

/-- Witness for C3 at a concrete frame. -/
theorem classify_planet_type_spec_witness :
    (DataFetcher.classify_planet_type
        [{ pl_name := some "a", pl_rade := Cell.num 3, pl_eqt := Cell.null,
           pl_orbper := Cell.null, disc_year := Cell.null, sy_dist := Cell.null,
           others_allna := false }]
      = ["Mini-Neptune"])
    ∧ "Mini-Neptune" ∈ ["Rocky (Earth-like)", "Super-Earth", "Mini-Neptune",
         "Neptune-like", "Jupiter-like", "Unknown"] := by
  refine ⟨by decide, ?_⟩
  exact (classify_planet_type_spec
    [{ pl_name := some "a", pl_rade := Cell.num 3, pl_eqt := Cell.null,
       pl_orbper := Cell.null, disc_year := Cell.null, sy_dist := Cell.null,
       others_allna := false }]).2 "Mini-Neptune" (by decide)

/-- **C7.** The discovery-year and distance binnings agree with the spec's
intervals, and a missing or out-of-range value gets no category. -/
theorem binning_spec (r : DataFetcher.RawRow) :
    DataFetcher.discoveryEraRow r = discoveryEraSpec r.disc_year.toNum
    ∧ DataFetcher.distanceCategoryRow r = distanceCategorySpec r.sy_dist.toNum := by
  constructor
  · unfold DataFetcher.discoveryEraRow discoveryEraSpec pdCut
    rcases r.disc_year.toNum with _ | x
    · rfl
    · rfl
  · unfold DataFetcher.distanceCategoryRow distanceCategorySpec pdCut
    rcases r.sy_dist.toNum with _ | x
    · rfl
    · rfl

set_option maxRecDepth 8192 in
/-- **C1 (counterexample).** Two filter selections that differ only in the
minimum habitability score produce different SQL query texts, so the query
string handed to the database is not independent of the user's filter values. -/
theorem explorer_query_text_differs :
    App.explorerQuery
        { selected_methods := [], year_lo := 2000, year_hi := 2025,
          radius_lo_halves := 0, radius_hi_halves := 50, temp_lo := 0,
          temp_hi := 3000, selected_types := [], min_habitability := 0 }
      ≠ App.explorerQuery
        { selected_methods := [], year_lo := 2000, year_hi := 2025,
          radius_lo_halves := 0, radius_hi_halves := 50, temp_lo := 0,
          temp_hi := 3000, selected_types := [], min_habitability := 10 } := by
  intro h
  exact absurd (congrArg String.length h) (by decide)

/-- **C1 (amended).** The Explorer query always consists of the fixed
`SELECT ... WHERE 1=1` head and the fixed `ORDER BY ... LIMIT 1000` tail, but
the filter values are interpolated into the conditions between them and no
bound parameters are passed to `pd.read_sql_query`; the query text therefore
varies with the filter selection. -/
theorem explorer_query_interpolates_filters :
    (∀ f : App.ExplorerFilters,
        App.read_sql_call f
          = (App.baseExplorerQuery ++ " AND "
              ++ String.intercalate " AND " (App.explorerConditions f)
              ++ App.orderLimitClause, []))
    ∧ ∃ f₁ f₂ : App.ExplorerFilters, App.explorerQuery f₁ ≠ App.explorerQuery f₂ := by
  constructor
  · intro f
    have hne : (App.explorerConditions f).isEmpty = false := by
      rw [Bool.eq_false_iff]
      intro hb
      have : App.explorerConditions f = [] := List.isEmpty_iff.mp hb
      unfold App.explorerConditions at this
      simp [List.append_eq_nil] at this
    unfold App.read_sql_call App.explorerQuery
    simp only [hne, Bool.false_eq_true, if_false, String.append_assoc]
  · exact ⟨_, _, explorer_query_text_differs⟩

/-- **C5.** `fetch_exoplanet_data` returns the decoded frame when the request
succeeds, returns the empty frame on every failure outcome (each failure is
caught by an `except` handler rather than propagated — the handlers' logging
is console I/O and is outside the embedding), and returns a non-empty frame
only when the request succeeded. -/
theorem fetch_catches_all_failures (o : DataFetcher.FetchOutcome) :
    (∀ records, o = DataFetcher.FetchOutcome.ok records →
        DataFetcher.fetch_exoplanet_data o = records)
    ∧ ((∀ records, o ≠ DataFetcher.FetchOutcome.ok records) →
        DataFetcher.fetch_exoplanet_data o = [])
    ∧ (DataFetcher.fetch_exoplanet_data o ≠ [] →
        ∃ records, o = DataFetcher.FetchOutcome.ok records ∧ records ≠ []) := by
  cases o <;> simp [DataFetcher.fetch_exoplanet_data]

/-- Witness for C5: a timeout yields the empty frame. -/
theorem fetch_catches_all_failures_witness :
    DataFetcher.fetch_exoplanet_data DataFetcher.FetchOutcome.timeout = [] :=
  (fetch_catches_all_failures DataFetcher.FetchOutcome.timeout).2.1
    (fun _ h => by cases h)

/-- **C8.** `main()` runs fetch, clean, save synchronously in that fixed
order: the stages executed are always an initial segment of
`[fetch, clean, save]`; an empty fetched frame stops the run before cleaning
and saving, an empty cleaned frame stops it before saving, and otherwise the
cleaned frame is saved. -/
theorem main_pipeline_order_and_early_stops (o : DataFetcher.FetchOutcome) :
    ((DataFetcher.mainRun o).1 = [DataFetcher.Stage.fetch]
      ∨ (DataFetcher.mainRun o).1 = [DataFetcher.Stage.fetch, DataFetcher.Stage.clean]
      ∨ (DataFetcher.mainRun o).1
          = [DataFetcher.Stage.fetch, DataFetcher.Stage.clean, DataFetcher.Stage.save])
    ∧ (DataFetcher.fetch_exoplanet_data o = [] →
        DataFetcher.mainRun o = ([DataFetcher.Stage.fetch], none))
    ∧ (DataFetcher.fetch_exoplanet_data o ≠ [] →
        DataFetcher.clean_exoplanet_data (DataFetcher.fetch_exoplanet_data o) = [] →
        DataFetcher.mainRun o = ([DataFetcher.Stage.fetch, DataFetcher.Stage.clean], none))
    ∧ (DataFetcher.fetch_exoplanet_data o ≠ [] →
        DataFetcher.clean_exoplanet_data (DataFetcher.fetch_exoplanet_data o) ≠ [] →
        DataFetcher.mainRun o
          = ([DataFetcher.Stage.fetch, DataFetcher.Stage.clean, DataFetcher.Stage.save],
             some (DataFetcher.clean_exoplanet_data (DataFetcher.fetch_exoplanet_data o)))) := by
  unfold DataFetcher.mainRun
  by_cases h1 : DataFetcher.fetch_exoplanet_data o = []
  · simp [h1]
  · by_cases h2 :
        DataFetcher.clean_exoplanet_data (DataFetcher.fetch_exoplanet_data o) = [] <;>
      simp [h1, h2, List.isEmpty_iff]

/-- Witness for C8: the three early-stop/run-through cases at concrete
outcomes (a timeout; a fetch whose single record has no planet name, so
cleaning empties the frame; a fetch with a named record). -/
theorem main_pipeline_order_and_early_stops_witness :
    DataFetcher.mainRun DataFetcher.FetchOutcome.timeout
        = ([DataFetcher.Stage.fetch], none)
    ∧ DataFetcher.mainRun
        (DataFetcher.FetchOutcome.ok
          [{ pl_name := none, pl_rade := Cell.num 1, pl_eqt := Cell.null,
             pl_orbper := Cell.null, disc_year := Cell.null, sy_dist := Cell.null,
             others_allna := false }])
        = ([DataFetcher.Stage.fetch, DataFetcher.Stage.clean], none)
    ∧ (DataFetcher.mainRun
        (DataFetcher.FetchOutcome.ok
          [{ pl_name := some "x", pl_rade := Cell.null, pl_eqt := Cell.null,
             pl_orbper := Cell.null, disc_year := Cell.null, sy_dist := Cell.null,
             others_allna := false }])).1
        = [DataFetcher.Stage.fetch, DataFetcher.Stage.clean, DataFetcher.Stage.save] := by
  refine ⟨(main_pipeline_order_and_early_stops DataFetcher.FetchOutcome.timeout).2.1 rfl,
    (main_pipeline_order_and_early_stops _).2.2.1 (by decide) (by decide), ?_⟩
  rw [((main_pipeline_order_and_early_stops _).2.2.2 (by decide) (by decide))]

/-! ### Helper lemmas about `dropDupFirst`, `find?` and `filter` -/

lemma dropDupFirst_sublist {α β : Type} [DecidableEq β] (key : α → β) :
    ∀ (l : List α) (seen : List β), (dropDupFirst key seen l).Sublist l := by
  intro l
  induction l with
  | nil => intro seen; simp [dropDupFirst]
  | cons x xs ih =>
      intro seen
      unfold dropDupFirst
      split_ifs with h
      · exact (ih seen).cons x
      · exact (ih (key x :: seen)).cons₂ x

lemma mem_dropDupFirst {α β : Type} [DecidableEq β] (key : α → β) :
    ∀ (l : List α) (seen : List β) (r : α), r ∈ dropDupFirst key seen l →
      key r ∉ seen ∧ l.find? (fun y => decide (key y = key r)) = some r := by
  intro l
  induction l with
  | nil => intro seen r h; simp [dropDupFirst] at h
  | cons x xs ih =>
      intro seen r h
      unfold dropDupFirst at h
      split_ifs at h with hx
      · obtain ⟨h1, h2⟩ := ih seen r h
        have hne : decide (key x = key r) = false :=
          decide_eq_false (fun he => h1 (he ▸ hx))
        refine ⟨h1, ?_⟩
        rw [List.find?_cons, hne]
        exact h2
      · rcases List.mem_cons.mp h with rfl | hmem
        · refine ⟨hx, ?_⟩
          rw [List.find?_cons, decide_eq_true rfl]
        · obtain ⟨h1, h2⟩ := ih (key x :: seen) r hmem
          rw [List.mem_cons, not_or] at h1
          have hne : decide (key x = key r) = false :=
            decide_eq_false (fun he => h1.1 he.symm)
          refine ⟨h1.2, ?_⟩
          rw [List.find?_cons, hne]
          exact h2

lemma dropDupFirst_keys_nodup {α β : Type} [DecidableEq β] (key : α → β) :
    ∀ (l : List α) (seen : List β), ((dropDupFirst key seen l).map key).Nodup := by
  intro l
  induction l with
  | nil => intro seen; simp [dropDupFirst]
  | cons x xs ih =>
      intro seen
      unfold dropDupFirst
      split_ifs with h
      · exact ih seen
      · simp only [List.map_cons, List.nodup_cons]
        refine ⟨?_, ih (key x :: seen)⟩
        intro hmem
        rcases List.mem_map.mp hmem with ⟨r, hr, hkey⟩
        exact (mem_dropDupFirst key xs (key x :: seen) r hr).1
          (List.mem_cons.mpr (Or.inl hkey))

lemma find?_of_find?_filter {α : Type} (p q : α → Bool)
    (himp : ∀ y, p y = true → q y = true) :
    ∀ (l : List α) (a : α), (l.filter q).find? p = some a → l.find? p = some a := by
  intro l
  induction l with
  | nil => simp
  | cons x xs ih =>
      intro a h
      by_cases hq : q x = true
      · rw [List.filter_cons_of_pos hq] at h
        rw [List.find?_cons] at h ⊢
        cases hp : p x with
        | true => rw [hp] at h; exact h
        | false => rw [hp] at h; exact ih a h
      · rw [List.filter_cons_of_neg hq] at h
        have hp : p x = false := by
          cases hpx : p x with
          | true => exact absurd (himp x hpx) hq
          | false => rfl
        rw [List.find?_cons, hp]
        exact ih a h

/-- **C4.** Both cleaning passes deduplicate on planet name: no two output
rows share a `pl_name`, surviving rows keep their original relative order
(the output is a sublist of the elementwise-transformed input), and each
output row is the first input row bearing its planet name. -/
theorem clean_dedup_keeps_first_in_order
    (rows : List DataFetcher.RawRow) (ext : List DataExtraction.ExtRow) :
    (((DataFetcher.clean_exoplanet_data rows).map (fun r => r.base.pl_name)).Nodup
      ∧ ((DataFetcher.clean_exoplanet_data rows).map (fun r => r.base)).Sublist
          (rows.map DataFetcher.coerceRow)
      ∧ ∀ r ∈ DataFetcher.clean_exoplanet_data rows,
          (rows.map DataFetcher.coerceRow).find?
            (fun y => decide (y.pl_name = r.base.pl_name)) = some r.base)
    ∧ (((DataExtraction.clean_exoplanet_data ext).map (fun r => r.pl_name)).Nodup
      ∧ (DataExtraction.clean_exoplanet_data ext).Sublist
          (ext.map (fun y => DataExtraction.coerceNumericCols (DataExtraction.coerceYear y)))
      ∧ ∀ r ∈ DataExtraction.clean_exoplanet_data ext,
          ∃ d, ext.find? (fun y => decide (y.pl_name = r.pl_name)) = some d
            ∧ r = DataExtraction.coerceNumericCols (DataExtraction.coerceYear d)) := by
  constructor
  · by_cases hemp : rows.isEmpty = true
    · rw [List.isEmpty_iff.mp hemp]
      simp [DataFetcher.clean_exoplanet_data]
    · have hemp' : rows.isEmpty = false := by
        cases h : rows.isEmpty with
        | true => exact absurd h hemp
        | false => rfl
      simp only [DataFetcher.clean_exoplanet_data, hemp', Bool.false_eq_true, if_false]
      set L := rows.map DataFetcher.coerceRow with hL
      set A := L.filter (fun r => !DataFetcher.rowAllNa r) with hA
      set B := A.filter (fun r => r.pl_name.isSome) with hB
      set D := dropDupFirst (fun r => r.pl_name) [] B with hD
      have hDB : D.Sublist B := dropDupFirst_sublist _ B []
      have hbase : ∀ d, (DataFetcher.enhanceRow d).base = d := fun d => rfl
      refine ⟨?_, ?_, ?_⟩
      · rw [List.map_map]
        have : ((fun r : DataFetcher.CleanRow => r.base.pl_name) ∘ DataFetcher.enhanceRow)
            = fun d : DataFetcher.RawRow => d.pl_name := rfl
        rw [this]
        exact dropDupFirst_keys_nodup _ B []
      · rw [List.map_map]
        have : ((fun r : DataFetcher.CleanRow => r.base) ∘ DataFetcher.enhanceRow)
            = fun d : DataFetcher.RawRow => d := rfl
        rw [this, List.map_id']
        exact hDB.trans ((List.filter_sublist A).trans (List.filter_sublist L))
      · intro r hr
        rcases List.mem_map.mp hr with ⟨d, hd, rfl⟩
        rw [hbase]
        have hfind := (mem_dropDupFirst _ B [] d hd).2
        have hdB : d ∈ B := hDB.subset hd
        have hsome : d.pl_name.isSome = true := (List.mem_filter.mp hdB).2
        have step1 : A.find? (fun y => decide (y.pl_name = d.pl_name)) = some d := by
          refine find?_of_find?_filter _ _ ?_ A d hfind
          intro y hy
          have : y.pl_name = d.pl_name := of_decide_eq_true hy
          rw [this]
          exact hsome
        refine find?_of_find?_filter _ _ ?_ L d step1
        intro y hy
        have hyname : y.pl_name = d.pl_name := of_decide_eq_true hy
        have : y.pl_name.isSome = true := by rw [hyname]; exact hsome
        simp [DataFetcher.rowAllNa, this]
  · unfold DataExtraction.clean_exoplanet_data
    set D := dropDupFirst (fun r : DataExtraction.ExtRow => r.pl_name) [] ext with hD
    have hDext : D.Sublist ext := dropDupFirst_sublist _ ext []
    set P := fun r : DataExtraction.ExtRow =>
      r.pl_rade.notna && r.pl_eqt.notna && r.pl_orbper.notna with hP
    have hnameC : ∀ r, (DataExtraction.coerceNumericCols r).pl_name = r.pl_name :=
      fun r => rfl
    have hnameY : ∀ r, (DataExtraction.coerceYear r).pl_name = r.pl_name :=
      fun r => rfl
    refine ⟨?_, ?_, ?_⟩
    · rw [List.map_map]
      have h1 : ((fun r : DataExtraction.ExtRow => r.pl_name)
          ∘ DataExtraction.coerceNumericCols) = fun r : DataExtraction.ExtRow => r.pl_name :=
        rfl
      rw [h1]
      have h2 : ((D.map DataExtraction.coerceYear).filter P).map
            (fun r : DataExtraction.ExtRow => r.pl_name)
          |>.Sublist ((D.map DataExtraction.coerceYear).map
            (fun r : DataExtraction.ExtRow => r.pl_name)) :=
        (List.filter_sublist _).map _
      refine h2.nodup ?_
      rw [List.map_map]
      have h3 : ((fun r : DataExtraction.ExtRow => r.pl_name)
          ∘ DataExtraction.coerceYear) = fun r : DataExtraction.ExtRow => r.pl_name := rfl
      rw [h3]
      exact dropDupFirst_keys_nodup _ ext []
    · have h1 : ((D.map DataExtraction.coerceYear).filter P).map
            DataExtraction.coerceNumericCols
          |>.Sublist ((D.map DataExtraction.coerceYear).map
            DataExtraction.coerceNumericCols) :=
        (List.filter_sublist _).map _
      refine h1.trans ?_
      rw [List.map_map]
      exact List.Sublist.map _ hDext
    · intro r hr
      rcases List.mem_map.mp hr with ⟨s, hs, rfl⟩
      obtain ⟨hsmem, -⟩ := List.mem_filter.mp hs
      rcases List.mem_map.mp hsmem with ⟨d, hd, rfl⟩
      refine ⟨d, ?_, rfl⟩
      have hfind := (mem_dropDupFirst _ ext [] d hd).2
      have : (DataExtraction.coerceNumericCols
          (DataExtraction.coerceYear d)).pl_name = d.pl_name := rfl
      rw [this]
      exact hfind

/-- Witness for C4 at a concrete pair of frames with duplicated planet names. -/
theorem clean_dedup_keeps_first_in_order_witness :
    (((DataFetcher.clean_exoplanet_data
        [{ pl_name := some "b", pl_rade := Cell.num 1, pl_eqt := Cell.null,
           pl_orbper := Cell.null, disc_year := Cell.null, sy_dist := Cell.null,
           others_allna := false },
         { pl_name := some "b", pl_rade := Cell.num 7, pl_eqt := Cell.null,
           pl_orbper := Cell.null, disc_year := Cell.null, sy_dist := Cell.null,
           others_allna := false }]).map (fun r => r.base.pl_name)).Nodup)
    ∧ (((DataExtraction.clean_exoplanet_data
        [{ pl_name := some "b", pl_rade := Cell.num 1, pl_eqt := Cell.num 1,
           pl_orbper := Cell.num 1 },
         { pl_name := some "b", pl_rade := Cell.num 7, pl_eqt := Cell.num 7,
           pl_orbper := Cell.num 7 }]).map (fun r => r.pl_name)).Nodup) := by
  exact ⟨(clean_dedup_keeps_first_in_order
      [{ pl_name := some "b", pl_rade := Cell.num 1, pl_eqt := Cell.null,
         pl_orbper := Cell.null, disc_year := Cell.null, sy_dist := Cell.null,
         others_allna := false },
       { pl_name := some "b", pl_rade := Cell.num 7, pl_eqt := Cell.null,
         pl_orbper := Cell.null, disc_year := Cell.null, sy_dist := Cell.null,
         others_allna := false }]
      [{ pl_name := some "b", pl_rade := Cell.num 1, pl_eqt := Cell.num 1,
         pl_orbper := Cell.num 1 },
       { pl_name := some "b", pl_rade := Cell.num 7, pl_eqt := Cell.num 7,
         pl_orbper := Cell.num 7 }]).1.1,
    (clean_dedup_keeps_first_in_order
      [{ pl_name := some "b", pl_rade := Cell.num 1, pl_eqt := Cell.null,
         pl_orbper := Cell.null, disc_year := Cell.null, sy_dist := Cell.null,
         others_allna := false }]
      [{ pl_name := some "b", pl_rade := Cell.num 1, pl_eqt := Cell.num 1,
         pl_orbper := Cell.num 1 },
       { pl_name := some "b", pl_rade := Cell.num 7, pl_eqt := Cell.num 7,
         pl_orbper := Cell.num 7 }]).2.1⟩

/-- A non-null numeric-or-null cell stays non-null under
`to_numeric(errors='coerce')`. -/
lemma cell_coerce_ne_null (c : Cell) (hn : c.notna = true) (hm : c ≠ Cell.nonnum) :
    c.toNumericCoerce ≠ Cell.null := by
  cases c <;> simp_all [Cell.notna, Cell.toNumericCoerce]

/-- **C10 (counterexample).** A row whose `pl_rade` entry is non-null but
non-numeric (e.g. the string `"abc"`) survives the critical-value `dropna`
(which runs before the coercion) and the coercion then turns that entry into
a null: `clean_exoplanet_data` returns a row with null `pl_rade`. -/
theorem extraction_clean_returns_null_critical :
    DataExtraction.clean_exoplanet_data
        [{ pl_name := some "x", pl_rade := Cell.nonnum,
           pl_eqt := Cell.num 1, pl_orbper := Cell.num 1 }]
      = [{ pl_name := some "x", pl_rade := Cell.null,
           pl_eqt := Cell.num 1, pl_orbper := Cell.num 1 }]
    ∧ ¬ (∀ r ∈ DataExtraction.clean_exoplanet_data
        [{ pl_name := some "x", pl_rade := Cell.nonnum,
           pl_eqt := Cell.num 1, pl_orbper := Cell.num 1 }],
        r.pl_rade ≠ Cell.null ∧ r.pl_eqt ≠ Cell.null ∧ r.pl_orbper ≠ Cell.null) := by
  constructor
  · decide
  · decide

/-- **C10 (amended).** Rows whose critical values are missing at the `dropna`
step are removed, but the later coercion can introduce nulls into the critical
columns of returned rows when an original entry is non-null yet non-numeric;
when every critical entry of the input is numeric or null, every returned row
has non-null `pl_rade`, `pl_eqt` and `pl_orbper`. -/
theorem extraction_critical_nonnull_for_numeric_inputs
    (rows : List DataExtraction.ExtRow)
    (hnum : ∀ r ∈ rows, r.pl_rade ≠ Cell.nonnum ∧ r.pl_eqt ≠ Cell.nonnum
      ∧ r.pl_orbper ≠ Cell.nonnum) :
    ∀ r ∈ DataExtraction.clean_exoplanet_data rows,
      r.pl_rade ≠ Cell.null ∧ r.pl_eqt ≠ Cell.null ∧ r.pl_orbper ≠ Cell.null := by
  intro r hr
  unfold DataExtraction.clean_exoplanet_data at hr
  rcases List.mem_map.mp hr with ⟨s, hs, rfl⟩
  obtain ⟨hsmem, hP⟩ := List.mem_filter.mp hs
  rcases List.mem_map.mp hsmem with ⟨d, hd, rfl⟩
  have hdrows : d ∈ rows := (dropDupFirst_sublist _ rows []).subset hd
  obtain ⟨h1, h2, h3⟩ := hnum d hdrows
  have hy : ∀ c : DataExtraction.ExtRow, (DataExtraction.coerceYear c).pl_rade = c.pl_rade
      ∧ (DataExtraction.coerceYear c).pl_eqt = c.pl_eqt
      ∧ (DataExtraction.coerceYear c).pl_orbper = c.pl_orbper :=
    fun c => ⟨rfl, rfl, rfl⟩
  rw [Bool.and_eq_true, Bool.and_eq_true] at hP
  obtain ⟨⟨ha, hb⟩, hc⟩ := hP
  rw [(hy d).1] at ha
  rw [(hy d).2.1] at hb
  rw [(hy d).2.2] at hc
  exact ⟨cell_coerce_ne_null _ ha h1, cell_coerce_ne_null _ hb h2,
    cell_coerce_ne_null _ hc h3⟩

/-- Witness for the amended C10 at a concrete numeric row. -/
theorem extraction_critical_nonnull_witness :
    ({ pl_name := some "x", pl_rade := Cell.num 1, pl_eqt := Cell.num 2,
         pl_orbper := Cell.num 3 } : DataExtraction.ExtRow).pl_rade ≠ Cell.null
    ∧ ({ pl_name := some "x", pl_rade := Cell.num 1, pl_eqt := Cell.num 2,
         pl_orbper := Cell.num 3 } : DataExtraction.ExtRow).pl_eqt ≠ Cell.null
    ∧ ({ pl_name := some "x", pl_rade := Cell.num 1, pl_eqt := Cell.num 2,
         pl_orbper := Cell.num 3 } : DataExtraction.ExtRow).pl_orbper ≠ Cell.null :=
  extraction_critical_nonnull_for_numeric_inputs
    [{ pl_name := some "x", pl_rade := Cell.num 1, pl_eqt := Cell.num 2,
       pl_orbper := Cell.num 3 }]
    (by decide)
    { pl_name := some "x", pl_rade := Cell.num 1, pl_eqt := Cell.num 2,
      pl_orbper := Cell.num 3 }
    (by decide)

/-! ### Helper lemmas about the SQLite insert operations -/

lemma insertPlanets_nil (t : List DatabaseSetup.PlanetRow) :
    DatabaseSetup.insertPlanets t [] = t := rfl

lemma insertPlanets_cons (t : List DatabaseSetup.PlanetRow) (x : DatabaseSetup.CsvRow)
    (xs : List DatabaseSetup.CsvRow) :
    DatabaseSetup.insertPlanets t (x :: xs)
      = DatabaseSetup.insertPlanets (DatabaseSetup.insertPlanet t x) xs := rfl

lemma insertPlanet_mem_names {t : List DatabaseSetup.PlanetRow}
    {row : DatabaseSetup.CsvRow} {n : String}
    (h : n ∈ t.map (fun q => q.pl_name)) :
    n ∈ (DatabaseSetup.insertPlanet t row).map (fun q => q.pl_name) := by
  unfold DatabaseSetup.insertPlanet
  cases row.pl_name with
  | none => exact h
  | some m =>
      dsimp only
      split_ifs with hmem
      · exact h
      · rw [List.map_append]
        exact List.mem_append_left _ h

lemma insertPlanets_mem_names (df : List DatabaseSetup.CsvRow) :
    ∀ (t : List DatabaseSetup.PlanetRow) (n : String),
      n ∈ t.map (fun q => q.pl_name) →
      n ∈ (DatabaseSetup.insertPlanets t df).map (fun q => q.pl_name) := by
  induction df with
  | nil => intro t n h; rw [insertPlanets_nil]; exact h
  | cons x xs ih =>
      intro t n h
      rw [insertPlanets_cons]
      exact ih (DatabaseSetup.insertPlanet t x) n (insertPlanet_mem_names h)

lemma insertPlanets_name_present (df : List DatabaseSetup.CsvRow) :
    ∀ (t : List DatabaseSetup.PlanetRow) (row : DatabaseSetup.CsvRow),
      row ∈ df → ∀ n, row.pl_name = some n →
      n ∈ (DatabaseSetup.insertPlanets t df).map (fun q => q.pl_name) := by
  induction df with
  | nil => intro t row hrow; simp at hrow
  | cons x xs ih =>
      intro t row hrow n hn
      rw [insertPlanets_cons]
      rcases List.mem_cons.mp hrow with rfl | hmem
      · apply insertPlanets_mem_names xs
        unfold DatabaseSetup.insertPlanet
        rw [hn]
        dsimp only
        split_ifs with hmem2
        · rcases List.any_eq_true.mp hmem2 with ⟨q, hq, hbeq⟩
          exact List.mem_map.mpr ⟨q, hq, by simpa using hbeq⟩
        · rw [List.map_append]
          apply List.mem_append_right
          simp [DatabaseSetup.mkPlanetRow]
      · exact ih (DatabaseSetup.insertPlanet t x) row hmem n hn

lemma insertPlanet_absorbed {t : List DatabaseSetup.PlanetRow}
    {row : DatabaseSetup.CsvRow}
    (h : ∀ n, row.pl_name = some n → n ∈ t.map (fun q => q.pl_name)) :
    DatabaseSetup.insertPlanet t row = t := by
  unfold DatabaseSetup.insertPlanet
  cases hrow : row.pl_name with
  | none => rfl
  | some n =>
      have hany : t.any (fun q => q.pl_name == n) = true := by
        rcases List.mem_map.mp (h n hrow) with ⟨q, hq, hqn⟩
        exact List.any_eq_true.mpr ⟨q, hq, by simpa using hqn⟩
      dsimp only
      rw [if_pos hany]

lemma insertPlanets_absorbed (df : List DatabaseSetup.CsvRow) :
    ∀ (t : List DatabaseSetup.PlanetRow),
      (∀ row ∈ df, ∀ n, row.pl_name = some n → n ∈ t.map (fun q => q.pl_name)) →
      DatabaseSetup.insertPlanets t df = t := by
  induction df with
  | nil => intro t _; rfl
  | cons x xs ih =>
      intro t h
      rw [insertPlanets_cons, insertPlanet_absorbed (h x (List.mem_cons_self x xs))]
      exact ih t (fun row hrow => h row (List.mem_cons_of_mem x hrow))

lemma insertPlanet_names_nodup {t : List DatabaseSetup.PlanetRow}
    {row : DatabaseSetup.CsvRow}
    (h : (t.map (fun q => q.pl_name)).Nodup) :
    ((DatabaseSetup.insertPlanet t row).map (fun q => q.pl_name)).Nodup := by
  unfold DatabaseSetup.insertPlanet
  cases hrow : row.pl_name with
  | none => exact h
  | some n =>
      dsimp only
      split_ifs with hmem
      · exact h
      · rw [List.map_append]
        refine List.Nodup.append h (List.nodup_singleton _) ?_
        intro a ha ha2
        have han : a = n := by simpa [DatabaseSetup.mkPlanetRow] using ha2
        subst han
        rcases List.mem_map.mp ha with ⟨q, hq, hqn⟩
        exact hmem (List.any_eq_true.mpr ⟨q, hq, by simpa using hqn⟩)

lemma replaceByKey_keys_nodup {α : Type} (key : α → String) {t : List α} (row : α)
    (h : (t.map key).Nodup) :
    ((DatabaseSetup.replaceByKey key t row).map key).Nodup := by
  unfold DatabaseSetup.replaceByKey
  rw [List.map_append]
  refine List.Nodup.append ?_ (List.nodup_singleton _) ?_
  · exact ((List.filter_sublist t).map key).nodup h
  · intro a ha ha2
    have han : a = key row := by simpa using ha2
    subst han
    rcases List.mem_map.mp ha with ⟨s, hs, hks⟩
    obtain ⟨-, hpred⟩ := List.mem_filter.mp hs
    rw [bne_iff_ne] at hpred
    exact hpred hks

lemma length_filter_ne {α : Type} (key : α → String) :
    ∀ (t : List α) (k : String), (t.map key).Nodup → k ∈ t.map key →
      (t.filter (fun s => key s != k)).length + 1 = t.length := by
  intro t
  induction t with
  | nil => intro k _ h; simp at h
  | cons x xs ih =>
      intro k hnd hmem
      rw [List.map_cons, List.nodup_cons] at hnd
      obtain ⟨hxnot, hnd'⟩ := hnd
      rcases List.mem_cons.mp hmem with heq | hmem'
      · have hpx : (key x != k) = false := by simp [heq]
        rw [List.filter_cons, hpx]
        simp only [Bool.false_eq_true, if_false]
        have hall : xs.filter (fun s => key s != k) = xs := by
          refine List.filter_eq_self.mpr ?_
          intro s hs
          rw [bne_iff_ne]
          intro hc
          rw [heq] at hc
          exact hxnot (hc ▸ List.mem_map_of_mem key hs)
        rw [hall, List.length_cons]
      · have hpx : (key x != k) = true := by
          rw [bne_iff_ne]
          intro hc
          exact hxnot (hc ▸ hmem')
        rw [List.filter_cons, hpx]
        simp only [if_true]
        rw [List.length_cons, List.length_cons, ih k hnd' hmem']

lemma replaceByKey_length {α : Type} (key : α → String) {t : List α} {row : α}
    (hnd : (t.map key).Nodup) (hmem : key row ∈ t.map key) :
    (DatabaseSetup.replaceByKey key t row).length = t.length := by
  unfold DatabaseSetup.replaceByKey
  rw [List.length_append]
  have h := length_filter_ne key t (key row) hnd hmem
  simpa using h

lemma replaceByKey_self_mem {α : Type} (key : α → String) (t : List α) (row : α) :
    row ∈ DatabaseSetup.replaceByKey key t row :=
  List.mem_append_right _ (List.mem_singleton_self row)

lemma replaceByKey_eq_of_key {α : Type} (key : α → String) {t : List α} {row r : α}
    (h : r ∈ DatabaseSetup.replaceByKey key t row) (hk : key r = key row) : r = row := by
  unfold DatabaseSetup.replaceByKey at h
  rcases List.mem_append.mp h with h1 | h2
  · obtain ⟨-, hpred⟩ := List.mem_filter.mp h1
    rw [bne_iff_ne] at hpred
    exact absurd hk hpred
  · simpa using h2

lemma replaceByKey_mem_of_ne {α : Type} (key : α → String) {t : List α} {row r : α}
    (h : r ∈ t) (hk : key r ≠ key row) : r ∈ DatabaseSetup.replaceByKey key t row :=
  List.mem_append_left _ (List.mem_filter.mpr ⟨h, by rwa [bne_iff_ne]⟩)

lemma foldl_replaceByKey_eq {α : Type} (key : α → String) :
    ∀ (rows : List α) (t : List α), (rows.map key).Nodup →
      rows.foldl (DatabaseSetup.replaceByKey key) t
        = t.filter (fun s => decide (key s ∉ rows.map key)) ++ rows := by
  intro rows
  induction rows with
  | nil =>
      intro t _
      simp
  | cons r rs ih =>
      intro t hnd
      rw [List.foldl_cons]
      rw [List.map_cons, List.nodup_cons] at hnd
      obtain ⟨hrnot, hnd'⟩ := hnd
      rw [ih (DatabaseSetup.replaceByKey key t r) hnd']
      unfold DatabaseSetup.replaceByKey
      rw [List.filter_append]
      have h1 : [r].filter (fun s => decide (key s ∉ rs.map key)) = [r] := by
        rw [List.filter_singleton, decide_eq_true hrnot]
        simp
      rw [h1, List.filter_filter]
      have h2 : t.filter
            (fun s => decide (key s ∉ rs.map key) && (key s != key r))
          = t.filter (fun s => decide (key s ∉ List.map key (r :: rs))) := by
        refine List.filter_congr ?_
        intro s _
        by_cases hc1 : key s = key r <;> by_cases hc2 : key s ∈ rs.map key <;>
          simp [hc1, hc2]
      rw [h2, List.append_assoc, List.singleton_append]

lemma foldl_replaceByKey_idem {α : Type} (key : α → String) (rows : List α)
    (hnd : (rows.map key).Nodup) (t : List α) :
    rows.foldl (DatabaseSetup.replaceByKey key)
        (rows.foldl (DatabaseSetup.replaceByKey key) t)
      = rows.foldl (DatabaseSetup.replaceByKey key) t := by
  rw [foldl_replaceByKey_eq key rows _ hnd, foldl_replaceByKey_eq key rows t hnd]
  rw [List.filter_append]
  have h1 : rows.filter (fun s => decide (key s ∉ rows.map key)) = [] := by
    refine List.filter_eq_nil_iff.mpr ?_
    intro a ha
    simp [List.mem_map_of_mem key ha]
  rw [h1, List.append_nil]
  congr 1
  rw [List.filter_filter]
  refine List.filter_congr ?_
  intro s _
  by_cases hc : key s ∈ rows.map key <;> simp [hc]

lemma star_data_keys (df : List DatabaseSetup.CsvRow) :
    (DatabaseSetup.star_data df).map (fun s => s.hostname)
      = DatabaseSetup.hostnames df := by
  unfold DatabaseSetup.star_data
  rw [List.map_map]
  exact List.map_id _

lemma system_data_keys (df : List DatabaseSetup.CsvRow) :
    (DatabaseSetup.system_data df).map (fun s => s.hostname)
      = DatabaseSetup.hostnames df := by
  unfold DatabaseSetup.system_data
  rw [List.map_map]
  exact List.map_id _

lemma hostnames_nodup (df : List DatabaseSetup.CsvRow) :
    (DatabaseSetup.hostnames df).Nodup := by
  unfold DatabaseSetup.hostnames
  have h := dropDupFirst_keys_nodup (id : String → String)
    (df.filterMap (fun r => r.hostname)) []
  simpa using h

/-- **C6.** The store has exactly the three tables of `DatabaseSetup.DB`
(`planets`, `stars`, `systems`), and each insert preserves the key
invariants: `INSERT OR IGNORE` keeps `pl_name` unique in `planets` and leaves
the table unchanged when the name is already present; `INSERT OR REPLACE`
keeps `hostname` unique in `stars` and in `systems`, replacing the existing
row (same row count, the new payload under that hostname, all other rows
untouched). -/
theorem db_insert_preserves_key_invariants
    (p : List DatabaseSetup.PlanetRow) (s : List DatabaseSetup.StarRow)
    (sys : List DatabaseSetup.SystemRow) (row : DatabaseSetup.CsvRow)
    (srow : DatabaseSetup.StarRow) (yrow : DatabaseSetup.SystemRow)
    (hp : (p.map (fun q => q.pl_name)).Nodup)
    (hs : (s.map (fun q => q.hostname)).Nodup)
    (hy : (sys.map (fun q => q.hostname)).Nodup) :
    ((DatabaseSetup.insertPlanet p row).map (fun q => q.pl_name)).Nodup
    ∧ (∀ n, row.pl_name = some n → n ∈ p.map (fun q => q.pl_name) →
        DatabaseSetup.insertPlanet p row = p)
    ∧ ((DatabaseSetup.insertOrReplaceStar s srow).map (fun q => q.hostname)).Nodup
    ∧ (srow.hostname ∈ s.map (fun q => q.hostname) →
        (DatabaseSetup.insertOrReplaceStar s srow).length = s.length)
    ∧ srow ∈ DatabaseSetup.insertOrReplaceStar s srow
    ∧ (∀ r ∈ DatabaseSetup.insertOrReplaceStar s srow,
        r.hostname = srow.hostname → r = srow)
    ∧ (∀ r ∈ s, r.hostname ≠ srow.hostname →
        r ∈ DatabaseSetup.insertOrReplaceStar s srow)
    ∧ ((DatabaseSetup.insertOrReplaceSystem sys yrow).map (fun q => q.hostname)).Nodup
    ∧ (yrow.hostname ∈ sys.map (fun q => q.hostname) →
        (DatabaseSetup.insertOrReplaceSystem sys yrow).length = sys.length)
    ∧ yrow ∈ DatabaseSetup.insertOrReplaceSystem sys yrow
    ∧ (∀ r ∈ DatabaseSetup.insertOrReplaceSystem sys yrow,
        r.hostname = yrow.hostname → r = yrow)
    ∧ (∀ r ∈ sys, r.hostname ≠ yrow.hostname →
        r ∈ DatabaseSetup.insertOrReplaceSystem sys yrow) := by
  refine ⟨insertPlanet_names_nodup hp, ?_,
    replaceByKey_keys_nodup _ srow hs,
    fun hmem => replaceByKey_length _ hs hmem,
    replaceByKey_self_mem _ s srow,
    fun r hr hk => replaceByKey_eq_of_key _ hr hk,
    fun r hr hk => replaceByKey_mem_of_ne _ hr hk,
    replaceByKey_keys_nodup _ yrow hy,
    fun hmem => replaceByKey_length _ hy hmem,
    replaceByKey_self_mem _ sys yrow,
    fun r hr hk => replaceByKey_eq_of_key _ hr hk,
    fun r hr hk => replaceByKey_mem_of_ne _ hr hk⟩
  intro n hn hmem
  refine insertPlanet_absorbed ?_
  intro m hm
  rw [hn] at hm
  have : n = m := by simpa using hm
  exact this ▸ hmem

/-- Witness for C6 at concrete one-row tables. -/
theorem db_insert_preserves_key_invariants_witness :
    DatabaseSetup.insertPlanet [{ pl_name := "x" }] { pl_name := some "x" }
        = [{ pl_name := "x" }]
    ∧ (DatabaseSetup.insertOrReplaceStar [{ hostname := "h", st_teff := some 5000 }]
        { hostname := "h", st_teff := some 6000 }).length = 1
    ∧ ({ hostname := "h", sy_dist := some 10 } : DatabaseSetup.SystemRow)
        ∈ DatabaseSetup.insertOrReplaceSystem [{ hostname := "h" }]
            { hostname := "h", sy_dist := some 10 } := by
  refine ⟨?_, ?_, ?_⟩
  · exact (db_insert_preserves_key_invariants [{ pl_name := "x" }] [] []
      { pl_name := some "x" } { hostname := "h" } { hostname := "h" }
      (by decide) (by decide) (by decide)).2.1 "x" rfl (by decide)
  · exact ((db_insert_preserves_key_invariants [] [{ hostname := "h", st_teff := some 5000 }]
      [] {} { hostname := "h", st_teff := some 6000 } { hostname := "h" }
      (by decide) (by decide) (by decide)).2.2.2.1 (by decide)).trans rfl
  · exact (db_insert_preserves_key_invariants [] [] [{ hostname := "h" }]
      {} { hostname := "h" } { hostname := "h", sy_dist := some 10 }
      (by decide) (by decide) (by decide)).2.2.2.2.2.2.2.2.2.1

/-- **C9.** Re-running `insert_data_from_csv` with the same CSV is a no-op on
the logical contents of all three tables: duplicate planet names are ignored,
and each aggregated star and system row replaces an identical payload. -/
theorem insert_data_from_csv_idempotent (db : DatabaseSetup.DB)
    (df : List DatabaseSetup.CsvRow) :
    DatabaseSetup.insert_data_from_csv (DatabaseSetup.insert_data_from_csv db df) df
      = DatabaseSetup.insert_data_from_csv db df := by
  unfold DatabaseSetup.insert_data_from_csv
  dsimp only
  simp only [DatabaseSetup.DB.mk.injEq]
  refine ⟨?_, ?_, ?_⟩
  · exact insertPlanets_absorbed df _
      (fun row hrow n hn => insertPlanets_name_present df db.planets row hrow n hn)
  · have hkeys : ((DatabaseSetup.star_data df).map (fun q => q.hostname)).Nodup := by
      rw [star_data_keys df]
      exact hostnames_nodup df
    exact foldl_replaceByKey_idem (fun q => q.hostname)
      (DatabaseSetup.star_data df) hkeys db.stars
  · have hkeys : ((DatabaseSetup.system_data df).map (fun q => q.hostname)).Nodup := by
      rw [system_data_keys df]
      exact hostnames_nodup df
    exact foldl_replaceByKey_idem (fun q => q.hostname)
      (DatabaseSetup.system_data df) hkeys db.systems
